import Mathlib

/-!
Verification of the bearer-token gate of `gcp-cloud-run-bearer-auth`
(`src/main.py`, `src/generate_jwt.py`) against its specification.

The two Python files are embedded shallowly below.  The service's own logic
(configuration lookup, Authorization-header parsing, the `try/except` mapping
of verification outcomes to messages, the per-endpoint 401 short-circuit) is
translated directly from the source.  The external PyJWT library calls
(`jwt.encode` / `jwt.decode`) are not part of the repository; they are
modelled at the interface boundary the spec gives for them (§4.2 steps 4-6,
§6): a compact token is either a structurally well-formed HS256 token whose
signature segment is the keyed MAC of its payload under some secret, or
wire garbage; the MAC is idealized as perfect (a signature made under
secret `s` verifies under key `k` iff `k = s`), and a token is expired
exactly when `now` is strictly after its `exp` claim.
-/

namespace BearerAuth

/-- The four claims minted by `generate_jwt.py` (`sub`, `iat`, `exp`, `iss`);
timestamps are Unix seconds. -/
structure Claims where
  sub : String
  iat : Int
  exp : Int
  iss : String
deriving DecidableEq, Repr

/-- Wire model of a compact JWS credential string, at the boundary the spec
draws in §6: either a well-formed three-segment token (header carrying the
`alg` value, payload carrying the claims, and a signature segment that is
the keyed MAC of the rest under `sigSecret`), or a string that fails
three-segment/base64url/JSON parsing with some detail message. -/
inductive JwtWire where
  | signed (alg : String) (payload : Claims) (sigSecret : String)
  | garbage (detail : String)
deriving DecidableEq, Repr

/-- Outcome classes of the PyJWT `jwt.decode` call, as discriminated by the
`try/except` chain in `verify_jwt_token` (`src/main.py` lines 39-46):
success, `ExpiredSignatureError`, `InvalidSignatureError`, `DecodeError`,
and any other exception. -/
inductive DecodeOutcome where
  | ok (payload : Claims)
  | expiredSignature
  | invalidSignature
  | decodeFailure (detail : String)
  | otherFailure (detail : String)
deriving DecidableEq, Repr

/-- The `(bool, payload-or-message)` pair returned by `verify_jwt_token`:
`(True, payload)` on success, `(False, message)` on failure. -/
inductive VerifyResult where
  | ok (payload : Claims)
  | err (message : String)
deriving DecidableEq, Repr

/-- A rendered `jsonify(...), status` response: the HTTP status plus the
JSON body fields used by the endpoints of `src/main.py` (absent keys are
`none`).  The reshaped per-service records of `/api/services` are
abstracted to their count, which is all the body carries that the gate
contract can see (the reshaping itself is pass-through data, spec §1). -/
structure HttpResponse where
  status : Nat
  error : Option String
  message : Option String
  success : Option Bool
  data : Option String
  version : Option String
  details : Option String
  service_count : Option Nat
deriving DecidableEq, Repr

/-- Python `str.split()` with no separator: split on whitespace runs and
drop empty pieces (modelled via `List.splitOnP` on the character list). -/
def pySplit (s : String) : List String :=
  (((s.data.splitOnP fun c => c.isWhitespace).filter fun w => !w.isEmpty).map
    fun w => String.mk w)

/-- Python `str.lower()` (ASCII case folding suffices for the scheme check). -/
def pyLower (s : String) : String :=
  String.mk (s.data.map Char.toLower)

/-- Python `os.environ.get(key, default)`: the environment is a partial map
from names to values. -/
def osEnvironGet (env : String → Option String) (key dflt : String) : String :=
  (env key).getD dflt

/-- `src/main.py` line 12: `JWT_SECRET_KEY = os.environ.get('JWT_SECRET_KEY',
'default-secret-key')`. -/
def JWT_SECRET_KEY (env : String → Option String) : String :=
  osEnvironGet env "JWT_SECRET_KEY" "default-secret-key"

/-- `src/main.py` line 13: `GCP_PROJECT_ID = os.environ.get('GCP_PROJECT_ID')`
(no default: absent stays `None`). -/
def GCP_PROJECT_ID (env : String → Option String) : Option String :=
  env "GCP_PROJECT_ID"

/-- Modelled from the spec: the external PyJWT
`jwt.decode(token, key, algorithms=['HS256'])` call, absent from the
repository, at the boundary of §4.2 steps 4-6 and §6.  Wire garbage raises
`DecodeError`; a token whose header algorithm is not among the allowed
`['HS256']` raises `InvalidAlgorithmError` (not a `DecodeError` subclass,
so it lands in the catch-all of `src/main.py` line 45); a signature made
under a different secret fails verification (perfect-MAC idealization);
`exp` is validated after the signature, a token being expired exactly when
`now` is strictly after `exp` (valid through `exp` inclusive, §4.2 step 6). -/
def jwtDecode (t : JwtWire) (key : String) (now : Int) : DecodeOutcome :=
  match t with
  | .garbage d => .decodeFailure d
  | .signed alg payload sigSecret =>
    if alg ≠ "HS256" then .otherFailure "The specified alg value is not allowed"
    else if sigSecret ≠ key then .invalidSignature
    else if now > payload.exp then .expiredSignature
    else .ok payload

/-- Modelled from the spec: the §4.1 mint contract
`mint(secret, subject, issuer, horizonDays)`, generalizing the fixed
subject/issuer of `generate_jwt_token`; `expiresAt = issuedAt +
horizonDays*86400s`, signed under `secret` with HS256. -/
def mint (secret sub iss : String) (horizonDays now : Int) : JwtWire :=
  .signed "HS256" ⟨sub, now, now + horizonDays * 86400, iss⟩ secret

/-- `src/generate_jwt.py` lines 18-39: payload
`{'sub': 'cloud-run-service', 'iat': now, 'exp': now + timedelta(days=d),
'iss': 'gcp-bearer-auth-service'}` encoded with HS256 under `secret_key`.
`timedelta(days=d)` is `d*86400` seconds; the current UTC instant is the
explicit `now` argument.  There is no validation of `secret_key` or
`expiration_days`. -/
def generate_jwt_token (secret_key : String) (expiration_days : Int)
    (now : Int) : JwtWire :=
  .signed "HS256"
    ⟨"cloud-run-service", now, now + expiration_days * 86400,
      "gcp-bearer-auth-service"⟩
    secret_key

/-- `src/main.py` lines 16-46, `verify_jwt_token`.  The request's
`Authorization` header is `none` when absent; `wire` is the §6 reading of
a credential string as a compact token (every string reads as some
`JwtWire`).  Python's falsy test `if not auth_header` rejects both a
missing header and a present-but-empty one.  `scheme, token =
auth_header.split()` raises `ValueError` (caught as the format error)
unless the split yields exactly two words; the scheme is then compared
case-insensitively before any decoding. -/
def verify_jwt_token (authHeader : Option String) (wire : String → JwtWire)
    (jwtSecretKey : String) (now : Int) : VerifyResult :=
  match authHeader with
  | none => .err "Authorization header required"
  | some h =>
    if h = "" then .err "Authorization header required"
    else
      match pySplit h with
      | [scheme, token] =>
        if pyLower scheme ≠ "bearer" then .err "Invalid authentication scheme"
        else
          match jwtDecode (wire token) jwtSecretKey now with
          | .ok payload => .ok payload
          | .expiredSignature => .err "Token has expired"
          | .invalidSignature =>
            .err "Invalid token: Signature verification failed"
          | .decodeFailure d => .err ("Invalid token: " ++ d)
          | .otherFailure d => .err ("Token validation error: " ++ d)
      | _ => .err "Invalid Authorization header format"

/-- The `jsonify({"error": "Unauthorized", "message": message}), 401`
response shared by both protected endpoints. -/
def unauthorizedResponse (message : String) : HttpResponse :=
  ⟨401, some "Unauthorized", some message, none, none, none, none, none⟩

/-- `src/main.py` lines 60-76, `/api/secure`: run `verify_jwt_token`; on
failure answer the 401 rejection, otherwise the fixed success body. -/
def secure_endpoint (authHeader : Option String) (wire : String → JwtWire)
    (jwtSecretKey : String) (now : Int) : HttpResponse :=
  match verify_jwt_token authHeader wire jwtSecretKey now with
  | .err m => unauthorizedResponse m
  | .ok _ =>
    ⟨200, none, some "Request authorized successfully!", some true,
      some "This is your secure response data.", some "1.0.1", none, none⟩

/-- Outcome of the external Cloud Run control-plane call together with the
pass-through reshaping loop of `src/main.py` lines 104-177 (out of scope
per spec §1): either the reshaped service records (abstracted to their
count) or one of the three exception classes the endpoint catches. -/
inductive ListingOutcome where
  | ok (serviceCount : Nat)
  | permissionDenied (detail : String)
  | notFound (detail : String)
  | failure (detail : String)
deriving DecidableEq, Repr

/-- `src/main.py` lines 87-198, `/api/services` (`list_services`): run
`verify_jwt_token` first and answer the 401 rejection on failure; then
require `GCP_PROJECT_ID`; only then invoke the control-plane listing
(`listing`), mapping its outcome to the endpoint's 200/403/404/500
responses. -/
def list_services (authHeader : Option String) (wire : String → JwtWire)
    (jwtSecretKey : String) (now : Int) (gcpProjectId : Option String)
    (gcpRegion : String) (listing : Unit → ListingOutcome) : HttpResponse :=
  match verify_jwt_token authHeader wire jwtSecretKey now with
  | .err m => unauthorizedResponse m
  | .ok _ =>
    match gcpProjectId with
    | none =>
      ⟨500, some "Configuration Error",
        some "GCP_PROJECT_ID environment variable not set",
        none, none, none, none, none⟩
    | some pid =>
      match listing () with
      | .ok n => ⟨200, none, none, some true, none, none, none, some n⟩
      | .permissionDenied d =>
        ⟨403, some "Permission Denied",
          some "Service account does not have permission to list Cloud Run services",
          none, none, none, some d, none⟩
      | .notFound d =>
        ⟨404, some "Not Found",
          some ("Project or region not found: " ++ pid ++ "/" ++ gcpRegion),
          none, none, none, some d, none⟩
      | .failure d =>
        ⟨500, some "Internal Server Error",
          some "Failed to list Cloud Run services",
          none, none, none, some d, none⟩

/-! ## Helper lemmas -/

/-- A run of non-whitespace characters is split into the single word it is. -/
lemma splitOnP_ws_eq_single (l : List Char)
    (h : ∀ c ∈ l, c.isWhitespace = false) :
    (l.splitOnP fun c => c.isWhitespace) = [l] :=
  List.splitOnP_eq_single _ _ fun x hx => by simp [h x hx]

/-- The same fact stated on the accumulator worker of `List.splitOnP`. -/
lemma splitOnP_go_ws (l : List Char) (h : ∀ c ∈ l, c.isWhitespace = false) :
    List.splitOnP.go (fun c => c.isWhitespace) l [] = [l] :=
  splitOnP_ws_eq_single l h

/-- Splitting a well-formed bearer header value yields exactly the scheme
word and the credential, for any whitespace-free non-empty credential. -/
lemma pySplit_bearer (tok : String) (hne : tok.data ≠ [])
    (hnw : ∀ c ∈ tok.data, c.isWhitespace = false) :
    pySplit ("Bearer " ++ tok) = ["Bearer", tok] := by
  have hd : ("Bearer " ++ tok).data
      = 'B' :: 'e' :: 'a' :: 'r' :: 'e' :: 'r' :: ' ' :: tok.data := by
    rw [String.data_append]; rfl
  have hne' : tok.data.isEmpty = false := by
    cases htd : tok.data with
    | nil => exact absurd htd hne
    | cons a l => rfl
  simp +decide [pySplit, hd, List.splitOnP_cons, splitOnP_go_ws tok.data hnw,
    List.modifyHead, List.filter, hne']

/-- A well-formed bearer header value is not the empty string. -/
lemma bearer_header_ne_empty (tok : String) : ("Bearer " ++ tok) ≠ "" := by
  intro h
  have : ("Bearer " ++ tok).data = "".data := by rw [h]
  rw [String.data_append] at this
  simp at this

/-- On a header of the exact form `Bearer <credential>`, the gate reduces to
the decode-outcome dispatch of the `try/except` chain. -/
lemma verify_bearer (tok : String) (hne : tok.data ≠ [])
    (hnw : ∀ c ∈ tok.data, c.isWhitespace = false)
    (wire : String → JwtWire) (secret : String) (now : Int) :
    verify_jwt_token (some ("Bearer " ++ tok)) wire secret now =
      (match jwtDecode (wire tok) secret now with
        | .ok payload => .ok payload
        | .expiredSignature => .err "Token has expired"
        | .invalidSignature =>
          .err "Invalid token: Signature verification failed"
        | .decodeFailure d => .err ("Invalid token: " ++ d)
        | .otherFailure d => .err ("Token validation error: " ++ d)) := by
  simp +decide [verify_jwt_token, bearer_header_ne_empty tok,
    pySplit_bearer tok hne hnw]

/-- A failed verification renders the shared 401 rejection body. -/
lemma secure_endpoint_err (authHeader : Option String)
    (wire : String → JwtWire) (secret : String) (now : Int) (m : String)
    (hm : verify_jwt_token authHeader wire secret now = .err m) :
    secure_endpoint authHeader wire secret now = unauthorizedResponse m := by
  simp [secure_endpoint, hm]

/-- Every verification outcome is `(True, payload)` or `(False, m)` with `m`
in one of the seven failure classes of the source. -/
lemma verify_classify (authHeader : Option String) (wire : String → JwtWire)
    (secret : String) (now : Int) :
    (∃ p, verify_jwt_token authHeader wire secret now = .ok p) ∨
      (∃ m, verify_jwt_token authHeader wire secret now = .err m ∧
        (m = "Authorization header required" ∨
          m = "Invalid Authorization header format" ∨
          m = "Invalid authentication scheme" ∨
          m = "Token has expired" ∨
          m = "Invalid token: Signature verification failed" ∨
          (∃ d, m = "Invalid token: " ++ d) ∨
          (∃ d, m = "Token validation error: " ++ d))) := by
  unfold verify_jwt_token
  match authHeader with
  | none => exact Or.inr ⟨_, rfl, by tauto⟩
  | some h =>
    by_cases h0 : h = ""
    · simp only [h0, if_pos rfl]
      exact Or.inr ⟨_, rfl, by tauto⟩
    · simp only [if_neg h0]
      match pySplit h with
      | [] => exact Or.inr ⟨_, rfl, by tauto⟩
      | [s] => exact Or.inr ⟨_, rfl, by tauto⟩
      | s :: t :: u :: r => exact Or.inr ⟨_, rfl, by tauto⟩
      | [scheme, token] =>
        by_cases hs : pyLower scheme ≠ "bearer"
        · simp only [if_pos hs]
          exact Or.inr ⟨_, rfl, by tauto⟩
        · simp only [if_neg hs]
          match jwtDecode (wire token) secret now with
          | .ok p => exact Or.inl ⟨p, rfl⟩
          | .expiredSignature => exact Or.inr ⟨_, rfl, by tauto⟩
          | .invalidSignature => exact Or.inr ⟨_, rfl, by tauto⟩
          | .decodeFailure d => exact Or.inr ⟨_, rfl, by tauto⟩
          | .otherFailure d => exact Or.inr ⟨_, rfl, by tauto⟩

/-- `generate_jwt_token` is the §4.1 mint contract at the fixed subject and
issuer of `src/generate_jwt.py`. -/
lemma generate_jwt_token_eq_mint (secret : String) (d now : Int) :
    generate_jwt_token secret d now =
      mint secret "cloud-run-service" "gcp-bearer-auth-service" d now := rfl

/-! ## Claim theorems -/

/-- C1: the claim says that with `JWT_SECRET_KEY` absent from the
environment the service fails closed and never verifies requests against a
built-in default key.  The code does the opposite: `src/main.py` line 12
silently falls back to the hardcoded string `default-secret-key`, the
process starts, and a request bearing a token signed under that very
default key is accepted as valid. -/
theorem C1_missing_secret_uses_hardcoded_default :
    JWT_SECRET_KEY (fun _ => none) = "default-secret-key" ∧
    verify_jwt_token (some "Bearer t")
      (fun _ => .signed "HS256"
        ⟨"cloud-run-service", 0, 100, "gcp-bearer-auth-service"⟩
        "default-secret-key")
      (JWT_SECRET_KEY (fun _ => none)) 0 =
      .ok ⟨"cloud-run-service", 0, 100, "gcp-bearer-auth-service"⟩ := by
  exact ⟨by decide, by decide⟩

/-- C2: a correctly signed token with expiry claim `exp` authenticates as
valid at `now = exp` (expiry is inclusive) and is rejected as expired at
every instant strictly after `exp`. -/
theorem C2_expiry_boundary (secret sub iss : String) (iat exp : Int)
    (wire : String → JwtWire) (tok : String)
    (hne : tok.data ≠ []) (hnw : ∀ c ∈ tok.data, c.isWhitespace = false)
    (hwire : wire tok = .signed "HS256" ⟨sub, iat, exp, iss⟩ secret) :
    verify_jwt_token (some ("Bearer " ++ tok)) wire secret exp =
      .ok ⟨sub, iat, exp, iss⟩ ∧
    ∀ now : Int, exp < now →
      verify_jwt_token (some ("Bearer " ++ tok)) wire secret now =
        .err "Token has expired" := by
  have h1 : ¬(exp > exp) := by omega
  constructor
  · simp [verify_bearer tok hne hnw, hwire, jwtDecode, h1]
  · intro now hnow
    have h2 : now > exp := hnow
    simp [verify_bearer tok hne hnw, hwire, jwtDecode, h2]

/-- Witness for C2 at a concrete token, at the boundary instant and one
second after it. -/
theorem C2_expiry_boundary_witness :
    verify_jwt_token (some ("Bearer " ++ "t"))
      (fun _ => .signed "HS256" ⟨"s", 0, 50, "i"⟩ "k") "k" 50 =
      .ok ⟨"s", 0, 50, "i"⟩ ∧
    verify_jwt_token (some ("Bearer " ++ "t"))
      (fun _ => .signed "HS256" ⟨"s", 0, 50, "i"⟩ "k") "k" 51 =
      .err "Token has expired" :=
  ⟨(C2_expiry_boundary "k" "s" "i" 0 50
      (fun _ => .signed "HS256" ⟨"s", 0, 50, "i"⟩ "k") "t"
      (by decide) (by decide) rfl).1,
    (C2_expiry_boundary "k" "s" "i" 0 50
      (fun _ => .signed "HS256" ⟨"s", 0, 50, "i"⟩ "k") "t"
      (by decide) (by decide) rfl).2 51 (by decide)⟩

/-- C3 counterexample: at a request whose token fails signature
verification, the rendered message is `Invalid token: Signature
verification failed` (capital `S`, `src/main.py` line 42), not the §4.4
table entry `Invalid token: signature verification failed` asserted by the
claim. -/
theorem C3_counterexample :
    secure_endpoint (some ("Bearer " ++ "x"))
      (fun _ => .signed "HS256" ⟨"s", 0, 100, "i"⟩ "other") "k" 0 =
      ⟨401, some "Unauthorized",
        some "Invalid token: Signature verification failed",
        none, none, none, none, none⟩ ∧
    some "Invalid token: Signature verification failed" ≠
      some "Invalid token: signature verification failed" := by
  exact ⟨by decide, by decide⟩

/-- C3 amended: every non-valid authentication outcome yields HTTP 401 with
body field `error = Unauthorized` and the message given exactly by the §4.4
table for that `AuthResult` variant, with the single exception that a
signature-verification failure yields `Invalid token: Signature
verification failed` (capital `S`) rather than the table entry with
lowercase `s`.  In particular: a missing header yields `Authorization
header required`, a malformed header `Invalid Authorization header
format`, a wrong scheme `Invalid authentication scheme`, an expired token
`Token has expired`, and a decode error `Invalid token: <detail>`
(containing the detail). -/
theorem C3_amended_rejection_mapping (authHeader : Option String)
    (wire : String → JwtWire) (secret : String) (now : Int) :
    (∀ m, verify_jwt_token authHeader wire secret now = .err m →
      secure_endpoint authHeader wire secret now =
        ⟨401, some "Unauthorized", some m, none, none, none, none, none⟩) ∧
    verify_jwt_token none wire secret now =
      .err "Authorization header required" ∧
    (∀ h : String, h ≠ "" → (pySplit h).length ≠ 2 →
      verify_jwt_token (some h) wire secret now =
        .err "Invalid Authorization header format") ∧
    (∀ h scheme tok, h ≠ "" → pySplit h = [scheme, tok] →
      pyLower scheme ≠ "bearer" →
      verify_jwt_token (some h) wire secret now =
        .err "Invalid authentication scheme") ∧
    (∀ tok : String, tok.data ≠ [] →
      (∀ c ∈ tok.data, c.isWhitespace = false) →
      ∀ p sk, wire tok = .signed "HS256" p sk → sk ≠ secret →
        verify_jwt_token (some ("Bearer " ++ tok)) wire secret now =
          .err "Invalid token: Signature verification failed") ∧
    (∀ tok : String, tok.data ≠ [] →
      (∀ c ∈ tok.data, c.isWhitespace = false) →
      ∀ p, wire tok = .signed "HS256" p secret → now > p.exp →
        verify_jwt_token (some ("Bearer " ++ tok)) wire secret now =
          .err "Token has expired") ∧
    (∀ tok : String, tok.data ≠ [] →
      (∀ c ∈ tok.data, c.isWhitespace = false) →
      ∀ d, wire tok = .garbage d →
        verify_jwt_token (some ("Bearer " ++ tok)) wire secret now =
          .err ("Invalid token: " ++ d)) := by
  refine ⟨fun m hm => secure_endpoint_err _ _ _ _ m hm, rfl, ?_, ?_, ?_, ?_, ?_⟩
  · intro h h0 hlen
    unfold verify_jwt_token
    simp only [if_neg h0]
    match hs : pySplit h with
    | [] => rfl
    | [s] => rfl
    | [s, t] => rw [hs] at hlen; simp at hlen
    | s :: t :: u :: r => rfl
  · intro h scheme tok h0 hsplit hscheme
    unfold verify_jwt_token
    simp only [if_neg h0, hsplit, if_pos hscheme]
  · intro tok hne hnw p sk hwire hsk
    simp [verify_bearer tok hne hnw, hwire, jwtDecode, hsk]
  · intro tok hne hnw p hwire hexp
    simp [verify_bearer tok hne hnw, hwire, jwtDecode, hexp]
  · intro tok hne hnw d hwire
    simp [verify_bearer tok hne hnw, hwire, jwtDecode]

/-- Witness for C3 amended: a concrete expired request rendered as 401. -/
theorem C3_amended_witness :
    secure_endpoint (some ("Bearer " ++ "x"))
      (fun _ => .signed "HS256" ⟨"s", 0, 10, "i"⟩ "k") "k" 11 =
      ⟨401, some "Unauthorized", some "Token has expired",
        none, none, none, none, none⟩ :=
  (C3_amended_rejection_mapping (some ("Bearer " ++ "x"))
    (fun _ => .signed "HS256" ⟨"s", 0, 10, "i"⟩ "k") "k" 11).1
    "Token has expired"
    ((C3_amended_rejection_mapping (some ("Bearer " ++ "x"))
      (fun _ => .signed "HS256" ⟨"s", 0, 10, "i"⟩ "k") "k" 11).2.2.2.2.2.1
      "x" (by decide) (by decide) ⟨"s", 0, 10, "i"⟩ rfl (by decide))

/-- C4 counterexample: a request whose `Authorization` header is present
but empty has a header value whose whitespace split yields zero tokens, so
the claim demands `Malformed` (`Invalid Authorization header format`); the
code instead short-circuits on the Python falsy test and answers the
`Missing` message (`Authorization header required`). -/
theorem C4_counterexample :
    verify_jwt_token (some "") (fun _ => .garbage "g") "k" 0 =
      .err "Authorization header required" ∧
    VerifyResult.err "Authorization header required" ≠
      .err "Invalid Authorization header format" := by
  exact ⟨by decide, by decide⟩

/-- C4 amended: the gate checks conditions in strict order with first match
winning — an absent header, and also a present-but-empty header value
(Python falsy test), yield the `Missing` message; every other header value
whose whitespace split does not yield exactly two tokens yields the
`Malformed` message; every two-token header whose first token is not
`bearer` case-insensitively yields the `WrongScheme` message.  In all
these cases the result is a constant independent of the universally
quantified `wire` and `secret`: no signature or decode check is reached. -/
theorem C4_amended_gate_order (wire : String → JwtWire) (secret : String)
    (now : Int) :
    verify_jwt_token none wire secret now =
      .err "Authorization header required" ∧
    verify_jwt_token (some "") wire secret now =
      .err "Authorization header required" ∧
    (∀ h : String, h ≠ "" → (pySplit h).length ≠ 2 →
      verify_jwt_token (some h) wire secret now =
        .err "Invalid Authorization header format") ∧
    (∀ h scheme tok, h ≠ "" → pySplit h = [scheme, tok] →
      pyLower scheme ≠ "bearer" →
      verify_jwt_token (some h) wire secret now =
        .err "Invalid authentication scheme") := by
  refine ⟨rfl, rfl, ?_, ?_⟩
  · intro h h0 hlen
    unfold verify_jwt_token
    simp only [if_neg h0]
    match hs : pySplit h with
    | [] => rfl
    | [s] => rfl
    | [s, t] => rw [hs] at hlen; simp at hlen
    | s :: t :: u :: r => rfl
  · intro h scheme tok h0 hsplit hscheme
    unfold verify_jwt_token
    simp only [if_neg h0, hsplit, if_pos hscheme]

/-- Witness for C4 amended: `Bearer` alone is malformed, `Basic abc` is the
wrong scheme. -/
theorem C4_amended_witness :
    verify_jwt_token (some "Bearer") (fun _ => .garbage "g") "k" 0 =
      .err "Invalid Authorization header format" ∧
    verify_jwt_token (some "Basic abc") (fun _ => .garbage "g") "k" 0 =
      .err "Invalid authentication scheme" :=
  ⟨(C4_amended_gate_order (fun _ => .garbage "g") "k" 0).2.2.1 "Bearer"
      (by decide) (by decide),
    (C4_amended_gate_order (fun _ => .garbage "g") "k" 0).2.2.2 "Basic abc"
      "Basic" "abc" (by decide) (by decide) (by decide)⟩

/-- C5: round-trip — minting under a non-empty secret with a positive
horizon and presenting the token as `Authorization: Bearer <token>` to the
gate with the same secret at `now = issuedAt` authenticates as valid with
the minted claims. -/
theorem C5_round_trip (secret sub iss : String) (horizonDays iat : Int)
    (hsecret : secret ≠ "") (hpos : 0 < horizonDays)
    (wire : String → JwtWire) (tok : String)
    (hne : tok.data ≠ []) (hnw : ∀ c ∈ tok.data, c.isWhitespace = false)
    (hwire : wire tok = mint secret sub iss horizonDays iat) :
    verify_jwt_token (some ("Bearer " ++ tok)) wire secret iat =
      .ok ⟨sub, iat, iat + horizonDays * 86400, iss⟩ := by
  have hexp : ¬(iat > iat + horizonDays * 86400) := by omega
  simp [verify_bearer tok hne hnw, hwire, mint, jwtDecode, hexp]

/-- Witness for C5 at the concrete inputs of the spec §8 scenario. -/
theorem C5_round_trip_witness :
    verify_jwt_token (some ("Bearer " ++ "t"))
      (fun _ => mint "s3cr3t" "cloud-run-service" "gcp-bearer-auth-service"
        365 1704067200)
      "s3cr3t" 1704067200 =
      .ok ⟨"cloud-run-service", 1704067200, 1704067200 + 365 * 86400,
        "gcp-bearer-auth-service"⟩ :=
  C5_round_trip "s3cr3t" "cloud-run-service" "gcp-bearer-auth-service"
    365 1704067200 (by decide) (by decide)
    (fun _ => mint "s3cr3t" "cloud-run-service" "gcp-bearer-auth-service"
      365 1704067200)
    "t" (by decide) (by decide) rfl

/-- C6: secret isolation — a token minted under `s1` and verified against a
different secret `s2` fails with the signature-verification message (and in
particular is never valid), at every verification instant. -/
theorem C6_secret_isolation (s1 s2 : String) (hne12 : s1 ≠ s2)
    (sub iss : String) (horizonDays mintTime now : Int)
    (wire : String → JwtWire) (tok : String)
    (hne : tok.data ≠ []) (hnw : ∀ c ∈ tok.data, c.isWhitespace = false)
    (hwire : wire tok = mint s1 sub iss horizonDays mintTime) :
    verify_jwt_token (some ("Bearer " ++ tok)) wire s2 now =
      .err "Invalid token: Signature verification failed" := by
  simp [verify_bearer tok hne hnw, hwire, mint, jwtDecode, hne12]

/-- Witness for C6 with two concrete distinct secrets. -/
theorem C6_secret_isolation_witness :
    verify_jwt_token (some ("Bearer " ++ "t"))
      (fun _ => mint "s1" "a" "b" 1 0) "s2" 0 =
      .err "Invalid token: Signature verification failed" :=
  C6_secret_isolation "s1" "s2" (by decide) "a" "b" 1 0 0
    (fun _ => mint "s1" "a" "b" 1 0) "t" (by decide) (by decide) rfl

/-- C7 counterexample: minting with `horizonDays = -1` is not rejected —
`generate_jwt_token` has no validation at all (`src/generate_jwt.py` lines
18-39) and returns a normally signed token, so a token is produced and no
`ConfigurationError` is raised. -/
theorem C7_counterexample :
    generate_jwt_token "k" (-1) 1000 =
      .signed "HS256"
        ⟨"cloud-run-service", 1000, -85400, "gcp-bearer-auth-service"⟩
        "k" := by
  decide

/-- C7 amended: a call to mint with `horizonDays ≤ 0` is not rejected; it
produces a normally signed token whose `expiresAt = issuedAt +
horizonDays*86400` is at or before `issuedAt`, i.e. a token already
expired at any instant after its issue time. -/
theorem C7_amended_no_horizon_validation (secret : String) (d now : Int)
    (hd : d ≤ 0) :
    generate_jwt_token secret d now =
      .signed "HS256"
        ⟨"cloud-run-service", now, now + d * 86400,
          "gcp-bearer-auth-service"⟩ secret ∧
    now + d * 86400 ≤ now := by
  exact ⟨rfl, by omega⟩

/-- Witness for C7 amended at `horizonDays = 0`. -/
theorem C7_amended_witness :
    generate_jwt_token "k" 0 5 =
      .signed "HS256"
        ⟨"cloud-run-service", 5, 5 + 0 * 86400, "gcp-bearer-auth-service"⟩
        "k" ∧
    (5 : Int) + 0 * 86400 ≤ 5 :=
  C7_amended_no_horizon_validation "k" 0 5 (by decide)

/-- C8: permissiveness — a token signed under the configured secret whose
expiry has not passed authenticates as valid whatever its subject, issuer
(and issued-at) claims are; no claim other than expiry is cross-checked. -/
theorem C8_permissive_claims (secret sub iss : String) (iat exp now : Int)
    (hnotexp : now ≤ exp)
    (wire : String → JwtWire) (tok : String)
    (hne : tok.data ≠ []) (hnw : ∀ c ∈ tok.data, c.isWhitespace = false)
    (hwire : wire tok = .signed "HS256" ⟨sub, iat, exp, iss⟩ secret) :
    verify_jwt_token (some ("Bearer " ++ tok)) wire secret now =
      .ok ⟨sub, iat, exp, iss⟩ := by
  have hexp : ¬(now > exp) := by omega
  simp [verify_bearer tok hne hnw, hwire, jwtDecode, hexp]

/-- Witness for C8 with an arbitrary-looking subject and issuer, and an
issued-at in the future. -/
theorem C8_permissive_claims_witness :
    verify_jwt_token (some ("Bearer " ++ "t"))
      (fun _ => .signed "HS256" ⟨"anyone", 999, 10, "any-issuer"⟩ "k")
      "k" 3 = .ok ⟨"anyone", 999, 10, "any-issuer"⟩ :=
  C8_permissive_claims "k" "anyone" "any-issuer" 999 10 3 (by decide)
    (fun _ => .signed "HS256" ⟨"anyone", 999, 10, "any-issuer"⟩ "k") "t"
    (by decide) (by decide) rfl

/-- C9: the listing endpoint runs authentication first; on any non-valid
outcome it answers the mapped 401 rejection, and the response is the same
constant for every possible behavior of the control-plane listing call —
the listing logic never executes. -/
theorem C9_listing_gated (authHeader : Option String)
    (wire : String → JwtWire) (secret : String) (now : Int)
    (pid : Option String) (region : String) (m : String)
    (hm : verify_jwt_token authHeader wire secret now = .err m) :
    ∀ listing : Unit → ListingOutcome,
      list_services authHeader wire secret now pid region listing =
        unauthorizedResponse m := by
  intro listing
  simp [list_services, hm]

/-- Witness for C9: an unauthenticated request to the listing endpoint is
rejected identically whatever the control-plane would have returned. -/
theorem C9_listing_gated_witness :
    list_services none (fun _ => .garbage "g") "k" 0 (some "p")
      "us-central1" (fun _ => .ok 3) =
      unauthorizedResponse "Authorization header required" :=
  C9_listing_gated none (fun _ => .garbage "g") "k" 0 (some "p")
    "us-central1" "Authorization header required" rfl (fun _ => .ok 3)

/-- C10: totality and the catch-all — every request receives a response
(the success body, or a 401 rejection whose message falls in one of the
seven failure classes of the source), and a decode-time failure outside
the three named exception classes is mapped to a message prefixed
`Token validation error: `, an eighth failure class beyond the seven
`AuthResult` variants of the spec. -/
theorem C10_total_catch_all (authHeader : Option String)
    (wire : String → JwtWire) (secret : String) (now : Int) :
    ((∃ p, verify_jwt_token authHeader wire secret now = .ok p) ∨
      (∃ m, verify_jwt_token authHeader wire secret now = .err m ∧
        secure_endpoint authHeader wire secret now = unauthorizedResponse m ∧
        (m = "Authorization header required" ∨
          m = "Invalid Authorization header format" ∨
          m = "Invalid authentication scheme" ∨
          m = "Token has expired" ∨
          m = "Invalid token: Signature verification failed" ∨
          (∃ d, m = "Invalid token: " ++ d) ∨
          (∃ d, m = "Token validation error: " ++ d)))) ∧
    (∀ tok : String, tok.data ≠ [] →
      (∀ c ∈ tok.data, c.isWhitespace = false) →
      ∀ d, jwtDecode (wire tok) secret now = .otherFailure d →
        verify_jwt_token (some ("Bearer " ++ tok)) wire secret now =
          .err ("Token validation error: " ++ d)) := by
  constructor
  · rcases verify_classify authHeader wire secret now with ⟨p, hp⟩ | ⟨m, hm, hcls⟩
    · exact Or.inl ⟨p, hp⟩
    · exact Or.inr ⟨m, hm, secure_endpoint_err _ _ _ _ m hm, hcls⟩
  · intro tok hne hnw d hd
    simp [verify_bearer tok hne hnw, hd]

/-- Witness for C10: a token whose header algorithm is not `HS256` raises
an exception outside the three named classes and is rendered with the
catch-all message. -/
theorem C10_total_catch_all_witness :
    verify_jwt_token (some ("Bearer " ++ "x"))
      (fun _ => .signed "none" ⟨"s", 0, 9, "i"⟩ "k") "k" 0 =
      .err ("Token validation error: " ++
        "The specified alg value is not allowed") :=
  (C10_total_catch_all (some ("Bearer " ++ "x"))
    (fun _ => .signed "none" ⟨"s", 0, 9, "i"⟩ "k") "k" 0).2 "x"
    (by decide) (by decide) "The specified alg value is not allowed"
    (by decide)

end BearerAuth
